import Mathlib

/-!
Verification of the numeric core of the Critical-Mineral-Separation-Benchmark
repository.

The repository's computational surface consists of two pure scalar functions
plus a charting helper:

* `calculate_theoretical_stages` (src/01_STRATEGIC_MATERIALS_AUDIT/
  verify_ree_selectivity.py) — the Kremser-Brown-Souders stage-count equation
  with input validation (raises `ValueError` on bad `beta` or purity ordering);
* `calculate_relative_lifetime` (src/02_COMPLIANCE_SIDE_STREAM/
  verify_pfas_binding.py) — the Arrhenius relative-lifetime factor, with no
  input validation (a zero divisor raises Python's `ZeroDivisionError`);
* `kremser_stages` (src/assets/generate_all_charts.py) — the unvalidated
  charting variant that returns `float('inf')` for `beta ≤ 1`.

Python floats are modelled as exact reals.  A raised Python exception is
modelled as the `Except.error` branch of an `Except PyError ℝ` result; the
error constructors carry the values that the Python error messages interpolate
into their text.  Positive infinity, which `kremser_stages` can return as an
ordinary value, is modelled by `⊤ : EReal`.
-/

/-- Exceptions raised by the numeric core.  Each constructor records the
values that the corresponding Python message reports. -/
inductive PyError where
  /-- `ValueError` from `calculate_theoretical_stages` when `beta ≤ 1`;
  the message states the offending `beta`. -/
  | valueErrorBeta (beta : ℝ)
  /-- `ValueError` from `calculate_theoretical_stages` when the purity
  ordering is violated; the message states both purity values. -/
  | valueErrorPurity (feed_purity target_purity : ℝ)
  /-- Python `ZeroDivisionError` (float division by zero). -/
  | zeroDivisionError

/-- Gas constant in kJ/(mol·K), as in both Python scripts. -/
noncomputable def R : ℝ := 8.314e-3

/-- `calculate_theoretical_stages` from
src/01_STRATEGIC_MATERIALS_AUDIT/verify_ree_selectivity.py (lines 91-180):
validates `beta > 1` and `0 < feed_purity < target_purity < 1` (raising
`ValueError` otherwise, the `beta` check first), then returns
`log(separation_degree) / log(beta)` where
`separation_degree = (target_purity*(1-feed_purity))/(feed_purity*(1-target_purity))`. -/
noncomputable def calculate_theoretical_stages (beta : ℝ)
    (target_purity : ℝ := 0.999) (feed_purity : ℝ := 0.10) : Except PyError ℝ :=
  if beta ≤ 1 then
    Except.error (PyError.valueErrorBeta beta)
  else if ¬ (0 < feed_purity ∧ feed_purity < target_purity ∧ target_purity < 1) then
    Except.error (PyError.valueErrorPurity feed_purity target_purity)
  else
    Except.ok (Real.log ((target_purity * (1 - feed_purity)) /
      (feed_purity * (1 - target_purity))) / Real.log beta)

/-- `calculate_relative_lifetime` from
src/02_COMPLIANCE_SIDE_STREAM/verify_pfas_binding.py (lines 101-166):
no input validation; computes `exp((|E_new| - |E_ref|) / (R * temperature_K))`.
Python float division raises `ZeroDivisionError` exactly when the divisor
`R * temperature_K` is zero. -/
noncomputable def calculate_relative_lifetime
    (binding_energy_new binding_energy_reference : ℝ)
    (temperature_K : ℝ := 298.0) : Except PyError ℝ :=
  if R * temperature_K = 0 then
    Except.error PyError.zeroDivisionError
  else
    Except.ok (Real.exp ((|binding_energy_new| - |binding_energy_reference|) /
      (R * temperature_K)))

/-- `kremser_stages` from src/assets/generate_all_charts.py (lines 74-79):
returns `float('inf')` when `beta ≤ 1`, otherwise the Kremser formula with
default purities `x_p = 0.999`, `x_f = 0.10`. -/
noncomputable def kremser_stages (beta : ℝ)
    (x_p : ℝ := 0.999) (x_f : ℝ := 0.10) : EReal :=
  if beta ≤ 1 then ⊤
  else ((Real.log ((x_p * (1 - x_f)) / (x_f * (1 - x_p))) / Real.log beta : ℝ) : EReal)

/-- Claim C1: for every `beta > 1` and purities with
`0 < feed_purity < target_purity < 1`, `calculate_theoretical_stages` returns
exactly `ln((target*(1-feed))/(feed*(1-target))) / ln(beta)`. -/
theorem C1_stage_formula (beta target_purity feed_purity : ℝ)
    (hb : 1 < beta) (h0 : 0 < feed_purity) (hft : feed_purity < target_purity)
    (ht : target_purity < 1) :
    calculate_theoretical_stages beta target_purity feed_purity =
      Except.ok (Real.log ((target_purity * (1 - feed_purity)) /
        (feed_purity * (1 - target_purity))) / Real.log beta) := by
  rw [calculate_theoretical_stages, if_neg (not_le.mpr hb),
    if_neg (not_not_intro ⟨h0, hft, ht⟩)]

/-- Witness for C1 at `beta = 2`, `target = 1/2`, `feed = 1/4`. -/
theorem C1_stage_formula_witness :
    calculate_theoretical_stages 2 (1/2) (1/4) =
      Except.ok (Real.log (((1:ℝ)/2 * (1 - 1/4)) / (1/4 * (1 - 1/2))) / Real.log 2) :=
  C1_stage_formula 2 (1/2) (1/4) (by norm_num) (by norm_num) (by norm_num) (by norm_num)

/-- Claim C2: `calculate_theoretical_stages` raises a `ValueError`
(`InvalidParameter`) iff `beta ≤ 1` or the ordering
`0 < feed_purity < target_purity < 1` is violated; the `beta` error carries the
offending `beta`, the purity error carries both purity values, and every other
input returns a value without raising. -/
theorem C2_validation (beta target_purity feed_purity : ℝ) :
    ((∃ e, calculate_theoretical_stages beta target_purity feed_purity = Except.error e) ↔
      (beta ≤ 1 ∨ ¬ (0 < feed_purity ∧ feed_purity < target_purity ∧ target_purity < 1)))
    ∧ (beta ≤ 1 →
        calculate_theoretical_stages beta target_purity feed_purity =
          Except.error (PyError.valueErrorBeta beta))
    ∧ (1 < beta → ¬ (0 < feed_purity ∧ feed_purity < target_purity ∧ target_purity < 1) →
        calculate_theoretical_stages beta target_purity feed_purity =
          Except.error (PyError.valueErrorPurity feed_purity target_purity)) := by
  by_cases hb : beta ≤ 1
  · refine ⟨⟨fun _ => Or.inl hb, fun _ => ?_⟩, fun _ => ?_, fun hb1 _ => absurd hb (not_le.mpr hb1)⟩
    · exact ⟨PyError.valueErrorBeta beta, by rw [calculate_theoretical_stages, if_pos hb]⟩
    · rw [calculate_theoretical_stages, if_pos hb]
  · by_cases hp : 0 < feed_purity ∧ feed_purity < target_purity ∧ target_purity < 1
    · refine ⟨⟨fun ⟨e, he⟩ => ?_, fun h => ?_⟩, fun h => absurd h hb, fun _ h => absurd hp h⟩
      · rw [calculate_theoretical_stages, if_neg hb, if_neg (not_not_intro hp)] at he
        exact absurd he (by simp)
      · rcases h with h | h
        · exact absurd h hb
        · exact absurd hp h
    · refine ⟨⟨fun _ => Or.inr hp, fun _ => ?_⟩, fun h => absurd h hb, fun _ _ => ?_⟩
      · exact ⟨PyError.valueErrorPurity feed_purity target_purity,
          by rw [calculate_theoretical_stages, if_neg hb, if_pos hp]⟩
      · rw [calculate_theoretical_stages, if_neg hb, if_pos hp]

/-- Witness for C2 at `beta = 1`: the `beta` validation fires and the error
carries the offending value. -/
theorem C2_validation_witness :
    calculate_theoretical_stages 1 (1/2) (1/4) =
      Except.error (PyError.valueErrorBeta 1) :=
  (C2_validation 1 (1/2) (1/4)).2.1 le_rfl

/-- Claim C3: for fixed purities `0 < feed < target < 1` the stage count is
finite (a real number), non-negative for every `beta > 1`, and strictly
decreasing in `beta`. -/
theorem C3_stages_decreasing (feed_purity target_purity b1 b2 : ℝ)
    (h0 : 0 < feed_purity) (hft : feed_purity < target_purity)
    (ht : target_purity < 1) (hb1 : 1 < b1) (hb12 : b1 < b2) :
    ∃ N1 N2 : ℝ,
      calculate_theoretical_stages b1 target_purity feed_purity = Except.ok N1 ∧
      calculate_theoretical_stages b2 target_purity feed_purity = Except.ok N2 ∧
      0 ≤ N1 ∧ 0 ≤ N2 ∧ N2 < N1 := by
  have hden : 0 < feed_purity * (1 - target_purity) :=
    mul_pos h0 (by linarith)
  have hnum : feed_purity * (1 - target_purity) < target_purity * (1 - feed_purity) := by
    nlinarith
  have hsep : 1 < (target_purity * (1 - feed_purity)) /
      (feed_purity * (1 - target_purity)) :=
    (one_lt_div hden).mpr hnum
  have hlogsep : 0 < Real.log ((target_purity * (1 - feed_purity)) /
      (feed_purity * (1 - target_purity))) := Real.log_pos hsep
  have hlog1 : 0 < Real.log b1 := Real.log_pos hb1
  have hlog2 : 0 < Real.log b2 := Real.log_pos (hb1.trans hb12)
  have hloglt : Real.log b1 < Real.log b2 :=
    Real.log_lt_log (by linarith) hb12
  refine ⟨_, _, C1_stage_formula b1 target_purity feed_purity hb1 h0 hft ht,
    C1_stage_formula b2 target_purity feed_purity (hb1.trans hb12) h0 hft ht,
    le_of_lt (div_pos hlogsep hlog1), le_of_lt (div_pos hlogsep hlog2), ?_⟩
  exact div_lt_div_of_pos_left hlogsep hlog1 hloglt

/-- Witness for C3 at `feed = 1/4`, `target = 1/2`, `b1 = 2`, `b2 = 4`. -/
theorem C3_stages_decreasing_witness :
    ∃ N1 N2 : ℝ,
      calculate_theoretical_stages 2 (1/2) (1/4) = Except.ok N1 ∧
      calculate_theoretical_stages 4 (1/2) (1/4) = Except.ok N2 ∧
      0 ≤ N1 ∧ 0 ≤ N2 ∧ N2 < N1 :=
  C3_stages_decreasing (1/4) (1/2) 2 4 (by norm_num) (by norm_num) (by norm_num)
    (by norm_num) (by norm_num)

/-- Helper: `R` is positive. -/
theorem R_pos : 0 < R := by rw [R]; norm_num

/-- Helper: for a nonzero temperature the divisor `R * T` is nonzero, so
`calculate_relative_lifetime` takes its normal branch. -/
theorem calculate_relative_lifetime_ok (A B T : ℝ) (hT : T ≠ 0) :
    calculate_relative_lifetime A B T =
      Except.ok (Real.exp ((|A| - |B|) / (R * T))) := by
  rw [calculate_relative_lifetime, if_neg (mul_ne_zero (ne_of_gt R_pos) hT)]

/-- Counterexample to claim C4 as stated: at `temperature_K = 0` the function
raises `ZeroDivisionError` instead of returning the exponential. -/
theorem C4_counterexample :
    calculate_relative_lifetime (-45) (-45) 0 =
      Except.error PyError.zeroDivisionError ∧
    ∀ v : ℝ, calculate_relative_lifetime (-45) (-45) 0 ≠ Except.ok v := by
  constructor
  · rw [calculate_relative_lifetime, if_pos (mul_zero R)]
  · intro v h
    rw [calculate_relative_lifetime, if_pos (mul_zero R)] at h
    exact absurd h (by simp)

/-- Claim C4, amended: for every pair of binding energies and every
`temperature_K ≠ 0`, `calculate_relative_lifetime` returns exactly
`exp((|E_new| - |E_ref|) / (R * temperature_K))` with `R = 8.314e-3`, and only
the magnitudes of the binding energies affect the result; at
`temperature_K = 0` the division raises `ZeroDivisionError`. -/
theorem C4_lifetime_formula (A B T : ℝ) (hT : T ≠ 0) :
    calculate_relative_lifetime A B T =
      Except.ok (Real.exp ((|A| - |B|) / (R * T))) ∧
    R = 8.314e-3 ∧
    calculate_relative_lifetime A B T = calculate_relative_lifetime (-A) (-B) T ∧
    calculate_relative_lifetime A B T = calculate_relative_lifetime |A| |B| T := by
  refine ⟨calculate_relative_lifetime_ok A B T hT, rfl, ?_, ?_⟩
  · rw [calculate_relative_lifetime_ok A B T hT,
      calculate_relative_lifetime_ok (-A) (-B) T hT, abs_neg, abs_neg]
  · rw [calculate_relative_lifetime_ok A B T hT,
      calculate_relative_lifetime_ok |A| |B| T hT, abs_abs, abs_abs]

/-- Witness for the amended C4 at `A = -85`, `B = -45`, `T = 298`. -/
theorem C4_lifetime_formula_witness :
    calculate_relative_lifetime (-85) (-45) 298 =
      Except.ok (Real.exp ((|(-85 : ℝ)| - |(-45 : ℝ)|) / (R * 298))) :=
  (C4_lifetime_formula (-85) (-45) 298 (by norm_num)).1

/-- Counterexample to claim C5 as stated: at the negative temperature
`T = -10` the function does not raise at all — it returns a value — so it does
not fail with `InvalidParameter` for every `temperature_K ≤ 0`. -/
theorem C5_counterexample :
    calculate_relative_lifetime (-60) (-45) (-10) =
      Except.ok (Real.exp ((|(-60 : ℝ)| - |(-45 : ℝ)|) / (R * (-10)))) := by
  rw [calculate_relative_lifetime, if_neg (by rw [R]; norm_num)]

/-- Claim C5, amended: `calculate_relative_lifetime` performs no temperature
validation.  For every `temperature_K ≠ 0` (negative temperatures included) it
returns a value without raising, and at `temperature_K = 0` it fails with
Python's `ZeroDivisionError`, not an `InvalidParameter` error. -/
theorem C5_no_validation (A B T : ℝ) :
    (T ≠ 0 → ∃ v, calculate_relative_lifetime A B T = Except.ok v) ∧
    (T = 0 → calculate_relative_lifetime A B T =
      Except.error PyError.zeroDivisionError) := by
  constructor
  · intro hT
    exact ⟨_, calculate_relative_lifetime_ok A B T hT⟩
  · intro hT
    rw [hT, calculate_relative_lifetime, if_pos (mul_zero R)]

/-- Witness for the amended C5 at `A = -60`, `B = -45`, `T = 0`. -/
theorem C5_no_validation_witness :
    calculate_relative_lifetime (-60) (-45) 0 =
      Except.error PyError.zeroDivisionError :=
  (C5_no_validation (-60) (-45) 0).2 rfl

/-- Claim C8: for all binding energies `A`, `B` and every `T > 0`,
`f(A,B,T) * f(B,A,T) = 1` exactly in real arithmetic, and
`calculate_relative_lifetime (-45) (-45)` (default temperature) is exactly 1. -/
theorem C8_inverse_property (A B T : ℝ) (hT : 0 < T) :
    (∃ v w : ℝ, calculate_relative_lifetime A B T = Except.ok v ∧
      calculate_relative_lifetime B A T = Except.ok w ∧ v * w = 1) ∧
    calculate_relative_lifetime (-45) (-45) = Except.ok 1 := by
  constructor
  · refine ⟨_, _, calculate_relative_lifetime_ok A B T (ne_of_gt hT),
      calculate_relative_lifetime_ok B A T (ne_of_gt hT), ?_⟩
    have hsum : (|A| - |B|) / (R * T) + (|B| - |A|) / (R * T) = 0 := by ring
    rw [← Real.exp_add, hsum, Real.exp_zero]
  · rw [calculate_relative_lifetime_ok (-45) (-45) 298.0 (by norm_num),
      sub_self, zero_div, Real.exp_zero]

/-- Witness for C8 at `A = -60`, `B = -45`, `T = 298`. -/
theorem C8_inverse_property_witness :
    ∃ v w : ℝ, calculate_relative_lifetime (-60) (-45) 298 = Except.ok v ∧
      calculate_relative_lifetime (-45) (-60) 298 = Except.ok w ∧ v * w = 1 :=
  (C8_inverse_property (-60) (-45) 298 (by norm_num)).1

/-- Claim C9: for every pair of binding energies and every `T > 0` the
lifetime factor is strictly positive, and it exceeds 1 iff the new binding
energy has strictly larger magnitude than the reference one. -/
theorem C9_factor_positive_iff (A B T : ℝ) (hT : 0 < T) :
    ∃ v : ℝ, calculate_relative_lifetime A B T = Except.ok v ∧
      0 < v ∧ (1 < v ↔ |B| < |A|) := by
  have hRT : 0 < R * T := mul_pos R_pos hT
  refine ⟨_, calculate_relative_lifetime_ok A B T (ne_of_gt hT),
    Real.exp_pos _, ?_⟩
  rw [Real.one_lt_exp_iff, lt_div_iff₀ hRT, zero_mul, sub_pos]

/-- Witness for C9 at `A = -85`, `B = -45`, `T = 350`. -/
theorem C9_factor_positive_iff_witness :
    ∃ v : ℝ, calculate_relative_lifetime (-85) (-45) 350 = Except.ok v ∧
      0 < v ∧ (1 < v ↔ |(-45 : ℝ)| < |(-85 : ℝ)|) :=
  C9_factor_positive_iff (-85) (-45) 350 (by norm_num)

/-- Claim C10: for every `beta > 1` the charting helper `kremser_stages`
(with its default purities) agrees exactly with the validated
`calculate_theoretical_stages` at `target = 0.999`, `feed = 0.10`; for
`beta ≤ 1` it returns positive infinity without raising, while the core
function raises `ValueError`. -/
theorem C10_kremser_refines_core (beta : ℝ) :
    (1 < beta → ∃ N : ℝ,
      calculate_theoretical_stages beta 0.999 0.10 = Except.ok N ∧
      kremser_stages beta = (N : EReal)) ∧
    (beta ≤ 1 → kremser_stages beta = ⊤ ∧
      calculate_theoretical_stages beta 0.999 0.10 =
        Except.error (PyError.valueErrorBeta beta)) := by
  constructor
  · intro hb
    refine ⟨_, C1_stage_formula beta 0.999 0.10 hb (by norm_num) (by norm_num)
      (by norm_num), ?_⟩
    rw [kremser_stages, if_neg (not_le.mpr hb)]
  · intro hb
    exact ⟨by rw [kremser_stages, if_pos hb],
      by rw [calculate_theoretical_stages, if_pos hb]⟩

/-- Witness for C10 at `beta = 2` and `beta = 1`. -/
theorem C10_kremser_refines_core_witness :
    (∃ N : ℝ, calculate_theoretical_stages 2 0.999 0.10 = Except.ok N ∧
      kremser_stages 2 = (N : EReal)) ∧ kremser_stages 1 = ⊤ :=
  ⟨(C10_kremser_refines_core 2).1 (by norm_num),
    ((C10_kremser_refines_core 1).2 le_rfl).1⟩

/-- Helper: the separation degree at the audit's default purities
`target = 0.999`, `feed = 0.10` is exactly 8991. -/
theorem separation_degree_default :
    ((0.999 : ℝ) * (1 - 0.10)) / (0.10 * (1 - 0.999)) = 8991 := by norm_num

/-- Helper: numeric bounds on the stage count at `beta = 2.5`:
`9.8 < log 8991 / log 2.5 < 10`. -/
theorem stage_count_beta25_bounds :
    9.8 < Real.log 8991 / Real.log 2.5 ∧ Real.log 8991 / Real.log 2.5 < 10 := by
  have hl : 0 < Real.log 2.5 := Real.log_pos (by norm_num)
  have hup : Real.log 8991 < 10 * Real.log 2.5 := by
    have h := Real.log_lt_log (show (0:ℝ) < 8991 by norm_num)
      (show (8991:ℝ) < 2.5 ^ (10:ℕ) by norm_num)
    rw [Real.log_pow] at h
    push_cast at h
    exact h
  have hlo : 49 * Real.log 2.5 < 5 * Real.log 8991 := by
    have h := Real.log_lt_log (show (0:ℝ) < 2.5 ^ (49:ℕ) by positivity)
      (show (2.5:ℝ) ^ (49:ℕ) < 8991 ^ (5:ℕ) by norm_num)
    rw [Real.log_pow, Real.log_pow] at h
    push_cast at h
    linarith
  constructor
  · rw [lt_div_iff₀ hl]
    linarith
  · rw [div_lt_iff₀ hl]
    linarith

/-- Counterexample to claim C6 as stated: the stage count at `beta = 2.5`,
`target = 0.999`, `feed = 0.10` is `log 8991 / log 2.5 ≈ 9.94`, which is not
within 0.1 of 10.9. -/
theorem C6_counterexample :
    calculate_theoretical_stages 2.5 0.999 0.10 =
      Except.ok (Real.log 8991 / Real.log 2.5) ∧
    ¬ |Real.log 8991 / Real.log 2.5 - 10.9| ≤ 0.1 := by
  constructor
  · rw [C1_stage_formula 2.5 0.999 0.10 (by norm_num) (by norm_num) (by norm_num)
      (by norm_num), separation_degree_default]
  · intro hle
    have hub := stage_count_beta25_bounds.2
    have habs : |Real.log 8991 / Real.log 2.5 - 10.9| =
        10.9 - Real.log 8991 / Real.log 2.5 := by
      rw [abs_of_neg (by linarith)]
      ring
    rw [habs] at hle
    linarith

/-- Claim C6, amended: `calculate_theoretical_stages(2.5, 0.999, 0.10)`
returns a value within 0.1 of 9.9 (the exact value is
`log 8991 / log 2.5 ≈ 9.94`), not within 0.1 of 10.9. -/
theorem C6_stage_count_p507 :
    calculate_theoretical_stages 2.5 0.999 0.10 =
      Except.ok (Real.log 8991 / Real.log 2.5) ∧
    |Real.log 8991 / Real.log 2.5 - 9.9| < 0.1 := by
  constructor
  · rw [C1_stage_formula 2.5 0.999 0.10 (by norm_num) (by norm_num) (by norm_num)
      (by norm_num), separation_degree_default]
  · have h := stage_count_beta25_bounds
    rw [abs_lt]
    constructor <;> linarith [h.1, h.2]

/-- Helper: numeric bounds on the stage count at `beta = 11000`:
`0.93 < log 8991 / log 11000 < 1`. -/
theorem stage_count_beta11000_bounds :
    0.93 < Real.log 8991 / Real.log 11000 ∧ Real.log 8991 / Real.log 11000 < 1 := by
  have hl : 0 < Real.log 11000 := Real.log_pos (by norm_num)
  have hup : Real.log 8991 < Real.log 11000 :=
    Real.log_lt_log (by norm_num) (by norm_num)
  have hlo : 93 * Real.log 11000 < 100 * Real.log 8991 := by
    have h := Real.log_lt_log (show (0:ℝ) < 11000 ^ (93:ℕ) by positivity)
      (show (11000:ℝ) ^ (93:ℕ) < 8991 ^ (100:ℕ) by norm_num)
    rw [Real.log_pow, Real.log_pow] at h
    push_cast at h
    linarith
  constructor
  · rw [lt_div_iff₀ hl]
    linarith
  · rw [div_lt_one hl]
    exact hup

/-- Counterexample to claim C7 as stated: the stage count at `beta = 11000`,
`target = 0.999`, `feed = 0.10` is `log 8991 / log 11000 ≈ 0.978`, which is
not within 0.05 of 1.66. -/
theorem C7_counterexample :
    calculate_theoretical_stages 11000 0.999 0.10 =
      Except.ok (Real.log 8991 / Real.log 11000) ∧
    ¬ |Real.log 8991 / Real.log 11000 - 1.66| ≤ 0.05 := by
  constructor
  · rw [C1_stage_formula 11000 0.999 0.10 (by norm_num) (by norm_num) (by norm_num)
      (by norm_num), separation_degree_default]
  · intro hle
    have hub := stage_count_beta11000_bounds.2
    have habs : |Real.log 8991 / Real.log 11000 - 1.66| =
        1.66 - Real.log 8991 / Real.log 11000 := by
      rw [abs_of_neg (by linarith)]
      ring
    rw [habs] at hle
    linarith

/-- Claim C7, amended: `calculate_theoretical_stages(11000, 0.999, 0.10)`
returns a value within 0.05 of 0.98 (the exact value is
`log 8991 / log 11000 ≈ 0.978`), not within 0.05 of 1.66. -/
theorem C7_stage_count_janus :
    calculate_theoretical_stages 11000 0.999 0.10 =
      Except.ok (Real.log 8991 / Real.log 11000) ∧
    |Real.log 8991 / Real.log 11000 - 0.98| < 0.05 := by
  constructor
  · rw [C1_stage_formula 11000 0.999 0.10 (by norm_num) (by norm_num) (by norm_num)
      (by norm_num), separation_degree_default]
  · have h := stage_count_beta11000_bounds
    rw [abs_lt]
    constructor <;> linarith [h.1, h.2]
